import Mathlib

/-!
Shallow embedding of the face-vital-be vital-signs pipeline
(services/spO2Processor.js, services/vitalSignsProcessor.js,
services/reportGenerator.js).

JavaScript numbers are modelled by `JSNum`: an exact rational together
with the three non-finite IEEE-754 values `NaN`, `+Infinity`,
`-Infinity`.  Arithmetic follows the ECMAScript rules for these values
(NaN propagation, signed infinities, `x / 0`, NaN-absorbing `Math.min`
/ `Math.max`, comparisons that are false on NaN).  Finite arithmetic is
exact (no binary rounding); negative zero is identified with zero.
`Math.sqrt` is modelled by `ratSqrt`, a rational square root that is
exact on perfect squares (the only values the development evaluates it
at) and non-negative everywhere, as the float function is on its
domain.  JavaScript arithmetic never throws, so every modelled
operation is total.
-/

inductive JSNum where
  | num (q : ℚ)
  | posInf
  | negInf
  | nan
deriving DecidableEq

namespace JSNum

/-- Addition, ECMAScript rules: NaN propagates, opposite infinities give NaN. -/
def jsAdd : JSNum → JSNum → JSNum
  | nan, _ => nan
  | _, nan => nan
  | posInf, negInf => nan
  | negInf, posInf => nan
  | posInf, _ => posInf
  | _, posInf => posInf
  | negInf, _ => negInf
  | _, negInf => negInf
  | num a, num b => num (a + b)

/-- Subtraction, ECMAScript rules. -/
def jsSub : JSNum → JSNum → JSNum
  | nan, _ => nan
  | _, nan => nan
  | posInf, posInf => nan
  | negInf, negInf => nan
  | posInf, _ => posInf
  | negInf, _ => negInf
  | _, posInf => negInf
  | _, negInf => posInf
  | num a, num b => num (a - b)

/-- Multiplication, ECMAScript rules: infinity times zero is NaN. -/
def jsMul : JSNum → JSNum → JSNum
  | nan, _ => nan
  | _, nan => nan
  | posInf, posInf => posInf
  | posInf, negInf => negInf
  | negInf, posInf => negInf
  | negInf, negInf => posInf
  | posInf, num b => if 0 < b then posInf else if b < 0 then negInf else nan
  | num a, posInf => if 0 < a then posInf else if a < 0 then negInf else nan
  | negInf, num b => if 0 < b then negInf else if b < 0 then posInf else nan
  | num a, negInf => if 0 < a then negInf else if a < 0 then posInf else nan
  | num a, num b => num (a * b)

/-- Division, ECMAScript rules: `0 / 0 = NaN`, `a / 0 = ±Infinity` for
finite nonzero `a`, `Infinity / Infinity = NaN`, finite over infinite
is zero (negative zero identified with zero). -/
def jsDiv : JSNum → JSNum → JSNum
  | nan, _ => nan
  | _, nan => nan
  | posInf, posInf => nan
  | posInf, negInf => nan
  | negInf, posInf => nan
  | negInf, negInf => nan
  | posInf, num b => if b < 0 then negInf else posInf
  | negInf, num b => if b < 0 then posInf else negInf
  | num _, posInf => num 0
  | num _, negInf => num 0
  | num a, num b =>
      if b = 0 then
        if 0 < a then posInf else if a < 0 then negInf else nan
      else num (a / b)

/-- Strict less-than, ECMAScript rules: any comparison with NaN is false. -/
def jsLt : JSNum → JSNum → Bool
  | nan, _ => false
  | _, nan => false
  | num a, num b => decide (a < b)
  | num _, posInf => true
  | num _, negInf => false
  | posInf, _ => false
  | negInf, posInf => true
  | negInf, num _ => true
  | negInf, negInf => false

/-- Strict greater-than. -/
def jsGt (a b : JSNum) : Bool := jsLt b a

/-- Non-strict less-or-equal, false whenever either side is NaN. -/
def jsLe : JSNum → JSNum → Bool
  | nan, _ => false
  | _, nan => false
  | num a, num b => decide (a ≤ b)
  | num _, posInf => true
  | num _, negInf => false
  | posInf, posInf => true
  | posInf, _ => false
  | negInf, _ => true

/-- Non-strict greater-or-equal. -/
def jsGe (a b : JSNum) : Bool := jsLe b a

/-- Math.abs. -/
def jsAbs : JSNum → JSNum
  | nan => nan
  | posInf => posInf
  | negInf => posInf
  | num a => num |a|

/-- Math.min: NaN if either argument is NaN. -/
def jsMin : JSNum → JSNum → JSNum
  | nan, _ => nan
  | _, nan => nan
  | posInf, b => b
  | a, posInf => a
  | negInf, _ => negInf
  | _, negInf => negInf
  | num a, num b => num (min a b)

/-- Math.max: NaN if either argument is NaN. -/
def jsMax : JSNum → JSNum → JSNum
  | nan, _ => nan
  | _, nan => nan
  | negInf, b => b
  | a, negInf => a
  | posInf, _ => posInf
  | _, posInf => posInf
  | num a, num b => num (max a b)

/-- Rational model of Math.sqrt on non-negative rationals: exact on
perfect squares, non-negative everywhere. -/
def ratSqrt (q : ℚ) : ℚ := (Nat.sqrt q.num.toNat : ℚ) / (Nat.sqrt q.den : ℚ)

/-- Math.sqrt: NaN on NaN and on negative arguments. -/
def jsSqrt : JSNum → JSNum
  | nan => nan
  | negInf => nan
  | posInf => posInf
  | num q => if q < 0 then nan else num (ratSqrt q)

/-- Math.round on a rational: floor of the argument plus one half. -/
def jsRoundQ (q : ℚ) : ℚ := (⌊q + 1 / 2⌋ : ℚ)

/-- Math.round, ECMAScript rules: NaN and infinities pass through. -/
def jsRound : JSNum → JSNum
  | nan => nan
  | posInf => posInf
  | negInf => negInf
  | num q => num (jsRoundQ q)

/-- JavaScript truthiness of a number: false exactly on zero and NaN. -/
def jsTruthy : JSNum → Bool
  | nan => false
  | num q => decide (q ≠ 0)
  | _ => true

/-- The JavaScript `||` operator restricted to numbers. -/
def jsOr (a b : JSNum) : JSNum := if jsTruthy a then a else b

end JSNum

open JSNum

/-- Math.mean (helper installed by the repo): `arr.reduce((a,b) => a+b, 0)`. -/
def mathSum (l : List JSNum) : JSNum := l.foldl jsAdd (num 0)

/-- Length guard `arr.length || 1` used by Math.mean and Math.std. -/
def lenOr1 (l : List JSNum) : ℚ := if l.length = 0 then 1 else (l.length : ℚ)

/-- Math.mean: `arr.reduce((a,b) => a+b, 0) / (arr.length || 1)`. -/
def mathMean (l : List JSNum) : JSNum := jsDiv (mathSum l) (num (lenOr1 l))

/-- Math.std: square root of `arr.reduce((a,b) => a + (b-mean)^2, 0) / (arr.length || 1)`. -/
def mathStd (l : List JSNum) : JSNum :=
  let mean := mathMean l
  let variance :=
    jsDiv (l.foldl (fun a b => jsAdd a (jsMul (jsSub b mean) (jsSub b mean))) (num 0))
      (num (lenOr1 l))
  jsSqrt variance

/-- movingAverage (spO2Processor.js): trailing window mean; for each index
`i` the window is `j` from `max 0 (i - windowSize + 1)` to `i`. -/
def movingAverage (signal : List JSNum) (windowSize : ℕ) : List JSNum :=
  (List.range signal.length).map (fun i =>
    let window := (signal.take (i + 1)).drop (i + 1 - windowSize)
    jsDiv (window.foldl jsAdd (num 0)) (num (window.length : ℚ)))

/-- normalizeSignal (spO2Processor.js): `signal.map(v => (v - mean) / std)`.
There is no guard on `std = 0`. -/
def normalizeSignal (signal : List JSNum) : List JSNum :=
  let mean := mathMean signal
  let std := mathStd signal
  signal.map (fun value => jsDiv (jsSub value mean) std)

/-! Definitions embedded from services/spO2Processor.js. -/

/-- A single rPPG frame sample: `rgb[0]`, `rgb[1]`, `rgb[2]` become the
fields `r`, `g`, `b`. -/
structure RGB where
  r : JSNum
  g : JSNum
  b : JSNum
deriving DecidableEq

/-- preprocessSignals: red channel, a synthetic infrared channel
`rgb[0] * 0.6 + rgb[2] * 0.4`, both normalised. -/
def preprocessSignals (rppgSignal : List RGB) : List JSNum × List JSNum :=
  let redSignal := rppgSignal.map RGB.r
  let infraredSignal :=
    rppgSignal.map (fun rgb => jsAdd (jsMul rgb.r (num (6 / 10))) (jsMul rgb.b (num (4 / 10))))
  (normalizeSignal redSignal, normalizeSignal infraredSignal)

/-- Option record passed to `butterworth`. -/
structure FilterOptions where
  lowFreq : JSNum
  highFreq : JSNum
  samplingRate : JSNum
  order : JSNum
deriving DecidableEq

/-- createButterworthCoefficients: the source returns the placeholder
coefficients `([1], [1])` whatever its arguments are. -/
def createButterworthCoefficients (_order _lowW _highW : JSNum) : List JSNum × List JSNum :=
  ([num 1], [num 1])

/-- filterSignal: the source ignores the coefficients and returns
`movingAverage(signal, 5)` as a placeholder. -/
def filterSignal (signal : List JSNum) (_numerator _denominator : List JSNum) : List JSNum :=
  movingAverage signal 5

/-- butterworth: computes normalised frequencies, builds coefficients and
applies `filterSignal`. -/
def butterworth (signal : List JSNum) (options : FilterOptions) : List JSNum :=
  let nyquist := jsDiv options.samplingRate (num 2)
  let lowW := jsDiv options.lowFreq nyquist
  let highW := jsDiv options.highFreq nyquist
  let coeffs := createButterworthCoefficients options.order lowW highW
  filterSignal signal coeffs.1 coeffs.2

/-- findPeaksTroughs: strict local maxima and minima over indices
`1 ≤ i ≤ length - 2`. -/
def findPeaksTroughs (signal : List JSNum) : List ℕ × List ℕ :=
  let peaks := (List.range signal.length).filter (fun i =>
    decide (1 ≤ i) && decide (i + 1 < signal.length) &&
    jsGt (signal.getD i nan) (signal.getD (i - 1) nan) &&
    jsGt (signal.getD i nan) (signal.getD (i + 1) nan))
  let troughs := (List.range signal.length).filter (fun i =>
    decide (1 ≤ i) && decide (i + 1 < signal.length) &&
    jsLt (signal.getD i nan) (signal.getD (i - 1) nan) &&
    jsLt (signal.getD i nan) (signal.getD (i + 1) nan))
  (peaks, troughs)

/-- Result of calculateACDCComponents. -/
structure ACDCComponents where
  ac : JSNum
  dc : JSNum
  perfusion : JSNum
  peaks : List ℕ
  troughs : List ℕ
  signal : List JSNum
deriving DecidableEq

/-- calculateACDCComponents: DC by a 30-sample moving average, AC by
subtraction, amplitude from mean peak minus mean trough values. -/
def calculateACDCComponents (signal : List JSNum) : ACDCComponents :=
  let dc := movingAverage signal 30
  let ac := (signal.zip dc).map (fun p => jsSub p.1 p.2)
  let pt := findPeaksTroughs ac
  let peakValues := pt.1.map (fun i => ac.getD i nan)
  let troughValues := pt.2.map (fun i => ac.getD i nan)
  let acAmplitude := jsSub (mathMean peakValues) (mathMean troughValues)
  let dcValue := mathMean dc
  { ac := acAmplitude
    dc := dcValue
    perfusion := jsMul (jsDiv acAmplitude dcValue) (num 100)
    peaks := pt.1
    troughs := pt.2
    signal := ac }

/-- calculateRatioAmplitude: `(red.ac / red.dc) / (ir.ac / ir.dc)`. -/
def calculateRatioAmplitude (redComponents irComponents : ACDCComponents) : JSNum :=
  jsDiv (jsDiv redComponents.ac redComponents.dc) (jsDiv irComponents.ac irComponents.dc)

/-- calculateAreaUnderCurve: sum of absolute values. -/
def calculateAreaUnderCurve (signal : List JSNum) : JSNum :=
  signal.foldl (fun s value => jsAdd s (jsAbs value)) (num 0)

/-- calculateRatioArea: ratio of the areas under the two curves. -/
def calculateRatioArea (redSignal irSignal : List JSNum) : JSNum :=
  jsDiv (calculateAreaUnderCurve redSignal) (calculateAreaUnderCurve irSignal)

/-- calculateCalibatedSpO2 (name as in the source): `spO2 = 110 - 25 * R`
clamped by `Math.min(100, Math.max(70, spO2))`. -/
def calculateCalibatedSpO2 (R : JSNum) : JSNum :=
  let spO2 := jsSub (num 110) (jsMul (num 25) R)
  jsMin (num 100) (jsMax (num 70) spO2)

/-- calculatePerfusionIndex: `(ac / dc) * 100`. -/
def calculatePerfusionIndex (components : ACDCComponents) : JSNum :=
  jsMul (jsDiv components.ac components.dc) (num 100)

/-- calculateSNR (spO2Processor.js): mean over standard deviation. -/
def calculateSNR (signal : List JSNum) : JSNum :=
  jsDiv (mathMean signal) (mathStd signal)

/-- calculateSignalStability: mean of the reciprocal standard deviations. -/
def calculateSignalStability (redSignal irSignal : List JSNum) : JSNum :=
  jsDiv (jsAdd (jsDiv (num 1) (mathStd redSignal)) (jsDiv (num 1) (mathStd irSignal))) (num 2)

/-- isPhysiologicallyValid: 1 when `0.5 ≤ R ≤ 2.0`, else 0. -/
def isPhysiologicallyValid (R : JSNum) : JSNum :=
  if jsGe R (num (1 / 2)) && jsLe R (num 2) then num 1 else num 0

/-- determineConfidenceLevel: score above 0.8 is high, above 0.6 moderate,
else low. -/
def determineConfidenceLevel (score : JSNum) : String :=
  if jsGt score (num (4 / 5)) then "high"
  else if jsGt score (num (3 / 5)) then "moderate"
  else "low"

/-- calculateReliability: mean of the three quality metrics, in the order
snr, stability, physiological. -/
def calculateReliability (snr stability physiological : JSNum) : JSNum :=
  jsDiv (jsAdd (jsAdd snr stability) physiological) (num 3)

/-- Result of assessSignalQuality. -/
structure SignalQualityAssessment where
  score : JSNum
  confidence : String
  reliability : JSNum
deriving DecidableEq

/-- assessSignalQuality: weighted SNR, stability and physiological
plausibility combined into a score with a confidence label. -/
def assessSignalQuality (redSignal irSignal : List JSNum) (R : JSNum) : SignalQualityAssessment :=
  let snr := jsAdd (jsMul (calculateSNR redSignal) (num (3 / 10)))
    (jsMul (calculateSNR irSignal) (num (7 / 10)))
  let stability := calculateSignalStability redSignal irSignal
  let physiological := isPhysiologicallyValid R
  let score := jsAdd (jsAdd (jsMul snr (num (4 / 10))) (jsMul stability (num (4 / 10))))
    (jsMul physiological (num (2 / 10)))
  { score := score
    confidence := determineConfidenceLevel score
    reliability := calculateReliability snr stability physiological }

/-- Result of calculateSpO2.  `value` is `none` for the JavaScript `null`
of the catch branch and `some v` for a returned number (which can be NaN). -/
structure SpO2Result where
  value : Option JSNum
  unit : String
  confidence : String
  perfusionIndex : JSNum
  qualityScore : JSNum
  qualityReliability : JSNum
deriving DecidableEq

/-- calculateSpO2: the try branch of the source.  Every JavaScript
operation in the body is total (arithmetic on numbers never throws, it
produces NaN or infinities), so the catch branch returning
`value: null` is unreachable on well-typed input and `value` is always
`some`. -/
def calculateSpO2 (rppgSignal : List RGB) : SpO2Result :=
  let pre := preprocessSignals rppgSignal
  let filteredRed := butterworth pre.1
    { lowFreq := num (1 / 2), highFreq := num 4, samplingRate := num 30, order := num 4 }
  let filteredIR := butterworth pre.2
    { lowFreq := num (1 / 2), highFreq := num 4, samplingRate := num 30, order := num 4 }
  let redComponents := calculateACDCComponents filteredRed
  let irComponents := calculateACDCComponents filteredIR
  let ratioAmplitude := calculateRatioAmplitude redComponents irComponents
  let ratioArea := calculateRatioArea filteredRed filteredIR
  let R := jsAdd (jsMul ratioAmplitude (num (6 / 10))) (jsMul ratioArea (num (4 / 10)))
  let spO2 := calculateCalibatedSpO2 R
  let quality := assessSignalQuality pre.1 pre.2 R
  let perfusionIndex := calculatePerfusionIndex redComponents
  { value := some (jsDiv (jsRound (jsMul spO2 (num 10))) (num 10))
    unit := "%"
    confidence := quality.confidence
    perfusionIndex := perfusionIndex
    qualityScore := quality.score
    qualityReliability := quality.reliability }

/-! Definitions embedded from services/vitalSignsProcessor.js. -/

/-- detectPeaks: strict local maxima over indices `1 ≤ i ≤ length - 2`. -/
def detectPeaks (signal : List JSNum) : List ℕ :=
  (List.range signal.length).filter (fun i =>
    decide (1 ≤ i) && decide (i + 1 < signal.length) &&
    jsGt (signal.getD i nan) (signal.getD (i - 1) nan) &&
    jsGt (signal.getD i nan) (signal.getD (i + 1) nan))

/-- calculateConfidence: `snr = mean(data) / std(data)`; above 2 high,
above 1 moderate, else low.  The `metric` argument of the source is
unused there and omitted here. -/
def calculateConfidence (data : List JSNum) : String :=
  let snr := jsDiv (mathMean data) (mathStd data)
  if jsGt snr (num 2) then "high"
  else if jsGt snr (num 1) then "moderate"
  else "low"

/-- calculateRMSSD: squared successive differences of the intervals,
averaged, with the JavaScript guard `... / differences.length || 1`
(NaN from `0 / 0` and an exact 0 are both falsy), then a square root.
Empty input returns 0 early. -/
def calculateRMSSD (intervals : List JSNum) : JSNum :=
  if intervals.length = 0 then num 0
  else
    let differences := (intervals.zip (intervals.drop 1)).map
      (fun p => jsMul (jsSub p.2 p.1) (jsSub p.2 p.1))
    jsSqrt (jsOr (jsDiv (differences.foldl jsAdd (num 0)) (num (differences.length : ℚ)))
      (num 1))

/-- Shape of the per-metric result records built by the processors. -/
structure VitalMetric where
  value : JSNum
  unit : String
  confidence : String
deriving DecidableEq

/-- calculateHeartRate: counted peaks of the green channel over the
duration at 5 FPS, rounded. -/
def calculateHeartRate (rppgSignal : List RGB) : VitalMetric :=
  let greenChannel := rppgSignal.map RGB.g
  let peaks := detectPeaks greenChannel
  let duration := jsDiv (num (rppgSignal.length : ℚ)) (num 5)
  let heartRate := jsDiv (jsMul (num (peaks.length : ℚ)) (num 60)) duration
  { value := jsRound heartRate
    unit := "bpm"
    confidence := calculateConfidence (peaks.map (fun i => num (i : ℚ))) }

/-- calculateHRV: RR intervals in milliseconds from successive peak
indices at 5 FPS, then RMSSD. -/
def calculateHRV (rppgSignal : List RGB) : VitalMetric :=
  let greenChannel := rppgSignal.map RGB.g
  let peaks := detectPeaks greenChannel
  let rrIntervals := (peaks.zip (peaks.drop 1)).map
    (fun p => jsMul (jsDiv (jsSub (num (p.2 : ℚ)) (num (p.1 : ℚ))) (num 5)) (num 1000))
  let rmssd := calculateRMSSD rrIntervals
  { value := jsRound rmssd
    unit := "ms"
    confidence := calculateConfidence rrIntervals }

/-- HRV band of calculateStressLevel: 100 below 20, 80 below 30, 60 below
50, 40 below 100, else 20.  Comparisons follow JavaScript, so NaN falls
to the final 20. -/
def hrvBandScore (hrvValue : JSNum) : ℚ :=
  if jsLt hrvValue (num 20) then 100
  else if jsLt hrvValue (num 30) then 80
  else if jsLt hrvValue (num 50) then 60
  else if jsLt hrvValue (num 100) then 40
  else 20

/-- Respiratory band of calculateStressLevel: 100 above 20, 80 above 18,
60 above 15, 40 above 12, else 20. -/
def respiratoryBandScore (respiratoryRate : JSNum) : ℚ :=
  if jsGt respiratoryRate (num 20) then 100
  else if jsGt respiratoryRate (num 18) then 80
  else if jsGt respiratoryRate (num 15) then 60
  else if jsGt respiratoryRate (num 12) then 40
  else 20

/-- getStressLevel: five labels at the breakpoints 80, 60, 40, 20. -/
def getStressLevel (score : ℚ) : String :=
  if score ≥ 80 then "very high"
  else if score ≥ 60 then "high"
  else if score ≥ 40 then "moderate"
  else if score ≥ 20 then "low"
  else "very low"

/-- Result record of calculateStressLevel. -/
structure StressResult where
  value : ℚ
  level : String
  confidence : String
deriving DecidableEq

/-- calculateStressLevel: banded HRV and respiratory scores combined as
`Math.round(hrvScore * 0.7 + respiratoryScore * 0.3)`, labelled by
getStressLevel; confidence is low when the inputs are out of the
plausible ranges, else moderate. -/
def calculateStressLevel (hrvValue respiratoryRate : JSNum) : StressResult :=
  let hrvScore := hrvBandScore hrvValue
  let respiratoryScore := respiratoryBandScore respiratoryRate
  let finalScore := jsRoundQ (hrvScore * (7 / 10) + respiratoryScore * (3 / 10))
  { value := finalScore
    level := getStressLevel finalScore
    confidence :=
      if jsLt hrvValue (num 10) || jsLt respiratoryRate (num 8) ||
          jsGt respiratoryRate (num 25) then "low"
      else "moderate" }

/-! Definitions embedded from services/reportGenerator.js. -/

/-- Confidence-carrying metric as the report generator reads it. -/
structure MetricWithConfidence where
  value : JSNum
  confidence : String
deriving DecidableEq

/-- Blood-pressure record as the report generator reads it. -/
structure BloodPressureMetric where
  systolic : JSNum
  diastolic : JSNum
  confidence : String
deriving DecidableEq

/-- SpO2 record as the report generator reads it: `value` is `none` for
the JavaScript `null`. -/
structure SpO2Metric where
  value : Option JSNum
  confidence : String
deriving DecidableEq

/-- The vitals bundle assembled by processVitalSigns and consumed by the
report generator. -/
structure VitalsBundle where
  heartRate : MetricWithConfidence
  hrv : MetricWithConfidence
  respiratoryRate : MetricWithConfidence
  bloodPressure : BloodPressureMetric
  stressLevel : MetricWithConfidence
  spO2 : SpO2Metric
deriving DecidableEq

/-- Fixed weight table of calculateOverallConfidence:
`confidenceScores[m.confidence] || 0.5` (a missing key yields
`undefined`, and `undefined || 0.5` is `0.5`). -/
def confidenceScore (confidence : String) : ℚ :=
  if confidence = "high" then 1
  else if confidence = "moderate" then 3 / 5
  else if confidence = "low" then 3 / 10
  else 1 / 2

/-- Result record of calculateOverallConfidence. -/
structure OverallConfidence where
  score : ℚ
  level : String
deriving DecidableEq

/-- calculateOverallConfidence: average of the weights of the six primary
metrics, re-bucketed at 0.8 and 0.5. -/
def calculateOverallConfidence (vitals : VitalsBundle) : OverallConfidence :=
  let measurements := [vitals.heartRate.confidence, vitals.hrv.confidence,
    vitals.respiratoryRate.confidence, vitals.bloodPressure.confidence,
    vitals.stressLevel.confidence, vitals.spO2.confidence]
  let avgConfidence := (measurements.map confidenceScore).foldl (fun a b => a + b) 0 /
    (measurements.length : ℚ)
  { score := avgConfidence
    level :=
      if avgConfidence > 4 / 5 then "high"
      else if avgConfidence > 1 / 2 then "moderate"
      else "low" }

/-- Summary record built by generateHealthSummary. -/
structure HealthSummary where
  concerns : List String
  positives : List String
  overallStatus : String
deriving DecidableEq

/-- generateHealthSummary: pushes concern and positive strings in source
order (heart rate, HRV, stress, SpO2); the status is Healthy exactly
when no concern was pushed.  The SpO2 concern strings interpolate the
measured value in the source; the interpolated number is elided here
since no theorem inspects it. -/
def generateHealthSummary (vitals : VitalsBundle) : HealthSummary :=
  let hrOutside := jsLt vitals.heartRate.value (num 60) || jsGt vitals.heartRate.value (num 100)
  let hrvLow := jsLt vitals.hrv.value (num 20)
  let stressHigh := jsGt vitals.stressLevel.value (num 70)
  let spO2Concerns : List String :=
    match vitals.spO2.value with
    | none => []
    | some v =>
        if jsGe v (num 95) then []
        else if jsGe v (num 90) then ["Mild reduction in oxygen saturation"]
        else ["Low oxygen saturation - immediate attention recommended"]
  let spO2Positives : List String :=
    match vitals.spO2.value with
    | none => []
    | some v => if jsGe v (num 95) then ["Normal oxygen saturation levels"] else []
  let concerns :=
    (if hrOutside then ["Heart rate outside normal range"] else []) ++
    (if hrvLow then ["Lower than optimal heart rate variability"] else []) ++
    (if stressHigh then ["Elevated stress levels detected"] else []) ++ spO2Concerns
  let positives :=
    (if hrOutside then [] else ["Heart rate within normal range"]) ++
    (if hrvLow then [] else ["Good heart rate variability"]) ++ spO2Positives
  { concerns := concerns
    positives := positives
    overallStatus := if concerns.length = 0 then "Healthy" else "Needs Attention" }

/-- One concern record of identifyHealthConcerns. -/
structure HealthConcern where
  type : String
  severity : String
  recommendation : String
deriving DecidableEq

/-- identifyHealthConcerns: elevated heart rate above 100, stress above
70, and SpO2 below 95 when non-null (severity High below 90). -/
def identifyHealthConcerns (vitals : VitalsBundle) : List HealthConcern :=
  (if jsGt vitals.heartRate.value (num 100) then
    [{ type := "Elevated Heart Rate", severity := "Moderate",
       recommendation :=
         "Consider relaxation techniques and consult healthcare provider if persistent" }]
  else []) ++
  (if jsGt vitals.stressLevel.value (num 70) then
    [{ type := "High Stress", severity := "Moderate",
       recommendation :=
         "Practice stress management techniques and ensure adequate rest" }]
  else []) ++
  (match vitals.spO2.value with
   | none => []
   | some v =>
       if jsLt v (num 95) then
         [{ type := "Reduced Oxygen Saturation",
            severity := if jsLt v (num 90) then "High" else "Moderate",
            recommendation :=
              if jsLt v (num 90) then "Seek immediate medical attention if this persists"
              else "Monitor oxygen levels and consult healthcare provider if persistent" }]
       else [])

/-! Basic simp lemmas about the JSNum operations. -/

namespace JSNum

@[simp] theorem jsAdd_nan_left (a : JSNum) : jsAdd nan a = nan := by cases a <;> rfl

@[simp] theorem jsAdd_nan_right (a : JSNum) : jsAdd a nan = nan := by cases a <;> rfl

@[simp] theorem jsAdd_num (a b : ℚ) : jsAdd (num a) (num b) = num (a + b) := rfl

@[simp] theorem jsSub_nan_left (a : JSNum) : jsSub nan a = nan := by cases a <;> rfl

@[simp] theorem jsSub_nan_right (a : JSNum) : jsSub a nan = nan := by cases a <;> rfl

@[simp] theorem jsSub_num (a b : ℚ) : jsSub (num a) (num b) = num (a - b) := rfl

@[simp] theorem jsMul_nan_left (a : JSNum) : jsMul nan a = nan := by cases a <;> rfl

@[simp] theorem jsMul_nan_right (a : JSNum) : jsMul a nan = nan := by cases a <;> rfl

@[simp] theorem jsMul_num (a b : ℚ) : jsMul (num a) (num b) = num (a * b) := rfl

@[simp] theorem jsDiv_nan_left (a : JSNum) : jsDiv nan a = nan := by cases a <;> rfl

@[simp] theorem jsDiv_nan_right (a : JSNum) : jsDiv a nan = nan := by cases a <;> rfl

theorem jsDiv_num_of_ne {b : ℚ} (a : ℚ) (hb : b ≠ 0) :
    jsDiv (num a) (num b) = num (a / b) := by
  simp [jsDiv, hb]

theorem jsDiv_zero_zero : jsDiv (num 0) (num 0) = nan := by simp [jsDiv]

@[simp] theorem jsLt_nan_left (a : JSNum) : jsLt nan a = false := by cases a <;> rfl

@[simp] theorem jsLt_nan_right (a : JSNum) : jsLt a nan = false := by cases a <;> rfl

@[simp] theorem jsLt_num (a b : ℚ) : jsLt (num a) (num b) = decide (a < b) := rfl

@[simp] theorem jsLe_nan_left (a : JSNum) : jsLe nan a = false := by cases a <;> rfl

@[simp] theorem jsLe_nan_right (a : JSNum) : jsLe a nan = false := by cases a <;> rfl

@[simp] theorem jsLe_num (a b : ℚ) : jsLe (num a) (num b) = decide (a ≤ b) := rfl

@[simp] theorem jsMin_num (a b : ℚ) : jsMin (num a) (num b) = num (min a b) := rfl

@[simp] theorem jsMin_num_nan (a : JSNum) : jsMin a nan = nan := by cases a <;> rfl

@[simp] theorem jsMax_num (a b : ℚ) : jsMax (num a) (num b) = num (max a b) := rfl

@[simp] theorem jsMax_num_nan (a : JSNum) : jsMax a nan = nan := by cases a <;> rfl

@[simp] theorem jsAbs_num (a : ℚ) : jsAbs (num a) = num |a| := rfl

@[simp] theorem jsAbs_nan : jsAbs nan = nan := rfl

@[simp] theorem jsSqrt_nan : jsSqrt nan = nan := rfl

@[simp] theorem jsRound_nan : jsRound nan = nan := rfl

@[simp] theorem jsRound_num (q : ℚ) : jsRound (num q) = num (jsRoundQ q) := rfl

@[simp] theorem jsTruthy_nan : jsTruthy nan = false := rfl

@[simp] theorem jsOr_nan (b : JSNum) : jsOr nan b = b := rfl

theorem ratSqrt_zero : ratSqrt 0 = 0 := by
  simp [ratSqrt]

theorem ratSqrt_one : ratSqrt 1 = 1 := by
  simp [ratSqrt]

theorem ratSqrt_nonneg (q : ℚ) : 0 ≤ ratSqrt q := by
  unfold ratSqrt
  positivity

@[simp] theorem jsSqrt_zero : jsSqrt (num 0) = num 0 := by
  simp [jsSqrt, ratSqrt_zero]

@[simp] theorem jsSqrt_one : jsSqrt (num 1) = num 1 := by
  simp [jsSqrt, ratSqrt_one]

theorem jsRoundQ_intCast (k : ℤ) : jsRoundQ (k : ℚ) = (k : ℚ) := by
  unfold jsRoundQ
  have h : ⌊(k : ℚ) + 1 / 2⌋ = k := by
    rw [Int.floor_eq_iff]
    constructor
    · linarith
    · linarith
  rw [h]

@[simp] theorem jsRoundQ_zero : jsRoundQ 0 = 0 := by
  have h := jsRoundQ_intCast 0
  simpa using h

end JSNum

/-! Lemmas about the statistics helpers on empty and constant signals. -/

theorem foldl_jsAdd_num (l : List ℚ) (a : ℚ) :
    (l.map num).foldl jsAdd (num a) = num (a + l.sum) := by
  induction l generalizing a with
  | nil => simp
  | cons x xs ih =>
      simp only [List.map_cons, List.foldl_cons, jsAdd_num, ih, List.sum_cons]
      ring_nf

theorem foldl_jsAdd_nan (l : List JSNum) : l.foldl jsAdd nan = nan := by
  induction l with
  | nil => rfl
  | cons x xs ih => simpa using ih

theorem foldl_jsAdd_replicate_nan {n : ℕ} (hn : n ≠ 0) (a : JSNum) :
    (List.replicate n nan).foldl jsAdd a = nan := by
  cases n with
  | zero => exact absurd rfl hn
  | succ m =>
      simp only [List.replicate_succ, List.foldl_cons, jsAdd_nan_right]
      exact foldl_jsAdd_nan _

theorem mathSum_nil : mathSum [] = num 0 := rfl

theorem mathSum_replicate_num (n : ℕ) (c : ℚ) :
    mathSum (List.replicate n (num c)) = num (n * c) := by
  have h : List.replicate n (num c) = (List.replicate n c).map num := by
    simp [List.map_replicate]
  rw [mathSum, h, foldl_jsAdd_num]
  simp [List.sum_replicate, nsmul_eq_mul]

theorem mathSum_replicate_nan {n : ℕ} (hn : n ≠ 0) :
    mathSum (List.replicate n nan) = nan :=
  foldl_jsAdd_replicate_nan hn _

theorem lenOr1_nil : lenOr1 ([] : List JSNum) = 1 := rfl

theorem lenOr1_replicate {n : ℕ} (hn : n ≠ 0) (a : JSNum) :
    lenOr1 (List.replicate n a) = (n : ℚ) := by
  simp [lenOr1, hn]

theorem mathMean_nil : mathMean [] = num 0 := by
  rw [mathMean, mathSum_nil, lenOr1_nil, jsDiv_num_of_ne 0 one_ne_zero]
  norm_num

theorem mathMean_replicate_num {n : ℕ} (hn : n ≠ 0) (c : ℚ) :
    mathMean (List.replicate n (num c)) = num c := by
  have hq : (n : ℚ) ≠ 0 := Nat.cast_ne_zero.mpr hn
  rw [mathMean, mathSum_replicate_num, lenOr1_replicate hn, jsDiv_num_of_ne _ hq]
  congr 1
  field_simp

theorem mathMean_replicate_nan {n : ℕ} (hn : n ≠ 0) :
    mathMean (List.replicate n nan) = nan := by
  rw [mathMean, mathSum_replicate_nan hn, jsDiv_nan_left]

theorem foldl_sq_dev_self (n : ℕ) (c a : ℚ) :
    (List.replicate n (num c)).foldl
      (fun acc b => jsAdd acc (jsMul (jsSub b (num c)) (jsSub b (num c)))) (num a) = num a := by
  induction n generalizing a with
  | zero => rfl
  | succ m ih =>
      simp only [List.replicate_succ, List.foldl_cons, jsSub_num, jsMul_num, jsAdd_num, sub_self,
        mul_zero, zero_mul, add_zero]
      exact ih a

theorem foldl_sq_dev_nan {mean : JSNum} (l : List JSNum) :
    l.foldl (fun acc b => jsAdd acc (jsMul (jsSub b mean) (jsSub b mean))) nan = nan := by
  induction l with
  | nil => rfl
  | cons x xs ih => simpa using ih

theorem mathStd_nil : mathStd [] = num 0 := by
  rw [mathStd]
  simp only [List.foldl_nil, lenOr1_nil]
  rw [jsDiv_num_of_ne 0 one_ne_zero]
  norm_num

theorem mathStd_replicate_num {n : ℕ} (hn : n ≠ 0) (c : ℚ) :
    mathStd (List.replicate n (num c)) = num 0 := by
  have hq : (n : ℚ) ≠ 0 := Nat.cast_ne_zero.mpr hn
  rw [mathStd]
  simp only [mathMean_replicate_num hn, foldl_sq_dev_self, lenOr1_replicate hn]
  rw [jsDiv_num_of_ne _ hq]
  simp [zero_div]

theorem mathStd_replicate_nan {n : ℕ} (hn : n ≠ 0) :
    mathStd (List.replicate n nan) = nan := by
  rw [mathStd]
  simp only [mathMean_replicate_nan hn]
  cases n with
  | zero => exact absurd rfl hn
  | succ m =>
      simp only [List.replicate_succ, List.foldl_cons, jsSub_nan_left, jsMul_nan_left,
        jsAdd_nan_right, foldl_sq_dev_nan, jsDiv_nan_left, jsSqrt_nan]

theorem normalizeSignal_replicate_num (n : ℕ) (c : ℚ) :
    normalizeSignal (List.replicate n (num c)) = List.replicate n nan := by
  cases n with
  | zero => rfl
  | succ m =>
      rw [normalizeSignal]
      simp only [mathMean_replicate_num (Nat.succ_ne_zero m),
        mathStd_replicate_num (Nat.succ_ne_zero m), List.map_replicate]
      rw [jsSub_num, sub_self, jsDiv_zero_zero]

/-! Lemmas about the signal-shape helpers on constant signals. -/

theorem getD_replicate (n i : ℕ) (a : JSNum) :
    (List.replicate n a).getD i a = a := by
  rw [List.getD]
  by_cases h : i < n <;> simp [List.get?_eq_getElem?, List.getElem?_replicate, h]

theorem getD_replicate_of_lt {n i : ℕ} (h : i < n) (a d : JSNum) :
    (List.replicate n a).getD i d = a := by
  rw [List.getD]
  simp [List.get?_eq_getElem?, List.getElem?_replicate, h]

theorem movingAverage_replicate_nan (n : ℕ) {w : ℕ} (hw : w ≠ 0) :
    movingAverage (List.replicate n nan) w = List.replicate n nan := by
  rw [movingAverage, List.eq_replicate]
  constructor
  · simp
  · intro b hb
    rw [List.mem_map] at hb
    obtain ⟨i, hi, hfi⟩ := hb
    rw [List.mem_range, List.length_replicate] at hi
    simp only [List.length_replicate, List.take_replicate, List.drop_replicate] at hfi
    have hmin : (i + 1) ⊓ n = i + 1 := Nat.min_eq_left (by omega)
    rw [hmin] at hfi
    have hlen : i + 1 - (i + 1 - w) ≠ 0 := by omega
    rw [foldl_jsAdd_replicate_nan hlen, jsDiv_nan_left] at hfi
    exact hfi.symm

theorem zip_replicate_self {α β : Type} (n : ℕ) (a : α) (b : β) :
    (List.replicate n a).zip (List.replicate n b) = List.replicate n (a, b) := by
  induction n with
  | zero => rfl
  | succ m ih => simp [List.replicate_succ, List.zip_cons_cons, ih]

theorem detectPeaks_replicate (n : ℕ) {a : JSNum} (ha : jsGt a a = false) :
    detectPeaks (List.replicate n a) = [] := by
  rw [detectPeaks, List.filter_eq_nil]
  intro i hi
  rw [List.mem_range, List.length_replicate] at hi
  by_cases hin : i + 1 < n
  · have g1 : (List.replicate n a).getD i nan = a := getD_replicate_of_lt hi _ _
    have g2 : (List.replicate n a).getD (i + 1) nan = a := getD_replicate_of_lt hin _ _
    simp only [List.length_replicate, g1, g2, ha, Bool.and_false]
    simp
  · simp [List.length_replicate, hin]

theorem findPeaksTroughs_replicate_nan (n : ℕ) :
    findPeaksTroughs (List.replicate n nan) = ([], []) := by
  rw [findPeaksTroughs]
  have h1 : (List.range (List.replicate n nan).length).filter (fun i =>
      decide (1 ≤ i) && decide (i + 1 < (List.replicate n nan).length) &&
      jsGt ((List.replicate n nan).getD i nan) ((List.replicate n nan).getD (i - 1) nan) &&
      jsGt ((List.replicate n nan).getD i nan) ((List.replicate n nan).getD (i + 1) nan)) = [] := by
    rw [List.filter_eq_nil]
    intro i hi
    simp [getD_replicate, jsGt]
  have h2 : (List.range (List.replicate n nan).length).filter (fun i =>
      decide (1 ≤ i) && decide (i + 1 < (List.replicate n nan).length) &&
      jsLt ((List.replicate n nan).getD i nan) ((List.replicate n nan).getD (i - 1) nan) &&
      jsLt ((List.replicate n nan).getD i nan) ((List.replicate n nan).getD (i + 1) nan)) = [] := by
    rw [List.filter_eq_nil]
    intro i hi
    simp [getD_replicate]
  rw [h1, h2]

/-! Lemmas tracing the spO2 pipeline on an all-NaN signal. -/

theorem butterworth_eq (signal : List JSNum) (options : FilterOptions) :
    butterworth signal options = movingAverage signal 5 := rfl

theorem calculateAreaUnderCurve_replicate_nan {n : ℕ} (hn : n ≠ 0) :
    calculateAreaUnderCurve (List.replicate n nan) = nan := by
  cases n with
  | zero => exact absurd rfl hn
  | succ m =>
      rw [calculateAreaUnderCurve]
      simp only [List.replicate_succ, List.foldl_cons, jsAbs_nan, jsAdd_nan_right]
      induction m with
      | zero => rfl
      | succ k ih => simpa using ih

theorem calculateACDCComponents_replicate_nan {n : ℕ} (hn : n ≠ 0) :
    calculateACDCComponents (List.replicate n nan) =
      { ac := num 0, dc := nan, perfusion := nan, peaks := [], troughs := [],
        signal := List.replicate n nan } := by
  rw [calculateACDCComponents]
  have h30 : (30 : ℕ) ≠ 0 := by norm_num
  simp only [movingAverage_replicate_nan n h30, zip_replicate_self, List.map_replicate,
    jsSub_nan_left, findPeaksTroughs_replicate_nan, List.map_nil, mathMean_nil,
    mathMean_replicate_nan hn, jsSub_num, jsDiv_nan_right, jsMul_nan_left, sub_self]

theorem calculateSNR_replicate_nan {n : ℕ} (hn : n ≠ 0) :
    calculateSNR (List.replicate n nan) = nan := by
  rw [calculateSNR, mathMean_replicate_nan hn, jsDiv_nan_left]

theorem mathStd_nan_jsDiv {n : ℕ} (hn : n ≠ 0) :
    jsDiv (num 1) (mathStd (List.replicate n nan)) = nan := by
  rw [mathStd_replicate_nan hn, jsDiv_nan_right]

theorem determineConfidenceLevel_nan : determineConfidenceLevel nan = "low" := by
  rw [determineConfidenceLevel]
  simp [jsGt]

theorem isPhysiologicallyValid_nan : isPhysiologicallyValid nan = num 0 := by
  rw [isPhysiologicallyValid]
  simp [jsGe]

theorem assessSignalQuality_replicate_nan {n : ℕ} (hn : n ≠ 0) :
    assessSignalQuality (List.replicate n nan) (List.replicate n nan) nan =
      { score := nan, confidence := "low", reliability := nan } := by
  rw [assessSignalQuality]
  simp only [calculateSNR_replicate_nan hn, jsMul_nan_left, jsAdd_nan_left, jsAdd_nan_right,
    calculateSignalStability, mathStd_nan_jsDiv hn, jsDiv_nan_left, isPhysiologicallyValid_nan,
    determineConfidenceLevel_nan, calculateReliability]

/-- Constant RGB frame with all three channels equal. -/
def constFrame (c : ℚ) : RGB := { r := num c, g := num c, b := num c }

theorem preprocessSignals_const (n : ℕ) (c : ℚ) :
    preprocessSignals (List.replicate n (constFrame c)) =
      (List.replicate n nan, List.replicate n nan) := by
  rw [preprocessSignals]
  simp only [List.map_replicate, constFrame, jsMul_num, jsAdd_num]
  rw [normalizeSignal_replicate_num, normalizeSignal_replicate_num]

theorem calculateSpO2_const {n : ℕ} (hn : n ≠ 0) (c : ℚ) :
    calculateSpO2 (List.replicate n (constFrame c)) =
      { value := some nan, unit := "%", confidence := "low", perfusionIndex := nan,
        qualityScore := nan, qualityReliability := nan } := by
  have h5 : (5 : ℕ) ≠ 0 := by norm_num
  rw [calculateSpO2]
  simp only [preprocessSignals_const, butterworth_eq, movingAverage_replicate_nan n h5,
    calculateACDCComponents_replicate_nan hn, calculateRatioAmplitude, calculateRatioArea,
    calculateAreaUnderCurve_replicate_nan hn, jsDiv_nan_left, jsDiv_nan_right, jsMul_nan_left,
    jsAdd_nan_left, jsAdd_nan_right, calculateCalibatedSpO2, jsMul_nan_right, jsSub_nan_right,
    jsMax_num_nan, jsMin_num_nan, jsRound_nan, calculatePerfusionIndex,
    assessSignalQuality_replicate_nan hn]

/-! Lemmas tracing the heart-rate and HRV computations on degenerate peak sets. -/

theorem calculateConfidence_nil : calculateConfidence [] = "low" := by
  rw [calculateConfidence]
  simp only [mathMean_nil, mathStd_nil, jsDiv_zero_zero]
  simp [jsGt]

theorem calculateRMSSD_nil : calculateRMSSD [] = num 0 := rfl

theorem zip_drop_one_nil {α : Type} {l : List α} (h : l.length ≤ 1) :
    l.zip (l.drop 1) = [] := by
  match l with
  | [] => rfl
  | [x] => rfl
  | x :: y :: t => simp at h

theorem calculateHRV_few_peaks {rppgSignal : List RGB}
    (h : (detectPeaks (rppgSignal.map RGB.g)).length < 2) :
    calculateHRV rppgSignal = { value := num 0, unit := "ms", confidence := "low" } := by
  rw [calculateHRV]
  rw [zip_drop_one_nil (by omega)]
  simp only [List.map_nil, calculateRMSSD_nil, jsRound_num, jsRoundQ_zero,
    calculateConfidence_nil]

theorem jsGt_self_num (c : ℚ) : jsGt (num c) (num c) = false := by
  simp [jsGt]

theorem calculateHeartRate_const {n : ℕ} (hn : n ≠ 0) (c : ℚ) :
    calculateHeartRate (List.replicate n (constFrame c)) =
      { value := num 0, unit := "bpm", confidence := "low" } := by
  have hq : (n : ℚ) / 5 ≠ 0 := by
    have : (n : ℚ) ≠ 0 := Nat.cast_ne_zero.mpr hn
    positivity
  rw [calculateHeartRate]
  simp only [List.map_replicate]
  rw [show (constFrame c).g = num c from rfl, detectPeaks_replicate n (jsGt_self_num c)]
  simp only [List.length_nil, List.length_replicate, Nat.cast_zero, List.map_nil,
    calculateConfidence_nil]
  rw [jsDiv_num_of_ne _ (by norm_num : (5 : ℚ) ≠ 0), jsMul_num, jsDiv_num_of_ne _ hq]
  norm_num
  exact calculateConfidence_nil

theorem calculateHRV_const {n : ℕ} (c : ℚ) :
    calculateHRV (List.replicate n (constFrame c)) =
      { value := num 0, unit := "ms", confidence := "low" } := by
  apply calculateHRV_few_peaks
  simp only [List.map_replicate]
  rw [show (constFrame c).g = num c from rfl, detectPeaks_replicate n (jsGt_self_num c)]
  norm_num

/-! Claim C1. -/

/-- C1, counterexample: the constant series `[5, 5, 5]` has `std = 0`, yet
`normalizeSignal` does not return the all-zero series — every element is
NaN (the division `0 / 0`), since the source has no zero-std guard. -/
theorem normalizeSignal_const_not_zero_output :
    mathStd [num 5, num 5, num 5] = num 0 ∧
    normalizeSignal [num 5, num 5, num 5] ≠ [num 0, num 0, num 0] ∧
    normalizeSignal [num 5, num 5, num 5] = [nan, nan, nan] := by
  have h3 : [num (5 : ℚ), num 5, num 5] = List.replicate 3 (num 5) := rfl
  have hstd := mathStd_replicate_num (by norm_num : (3 : ℕ) ≠ 0) 5
  have hnorm := normalizeSignal_replicate_num 3 5
  rw [h3, hstd, hnorm]
  refine ⟨rfl, ?_, rfl⟩
  simp

/-- C1, amended: for every constant scalar series the computed `std` is 0,
and `normalizeSignal` returns a series of NaN values (the unguarded
division `0 / 0`), not the all-zero series. -/
theorem normalizeSignal_zero_std_all_nan (n : ℕ) (c : ℚ) :
    mathStd (List.replicate n (num c)) = num 0 ∧
    normalizeSignal (List.replicate n (num c)) = List.replicate n nan := by
  refine ⟨?_, normalizeSignal_replicate_num n c⟩
  cases n with
  | zero => exact mathStd_nil
  | succ m => exact mathStd_replicate_num (Nat.succ_ne_zero m) c

/-! Claim C2. -/

/-- C2, counterexample: on the constant RGB series of length 50 the SpO2
estimator returns `value = NaN` (a number), not `null` — JavaScript
arithmetic never throws, so the catch branch that would produce `null`
is not exercised. -/
theorem calculateSpO2_constant_value_not_null :
    (calculateSpO2 (List.replicate 50 (constFrame 1))).value = some nan ∧
    (calculateSpO2 (List.replicate 50 (constFrame 1))).value ≠ none := by
  rw [calculateSpO2_const (by norm_num : (50 : ℕ) ≠ 0) 1]
  exact ⟨rfl, by simp⟩

/-- C2, amended: on every non-empty constant RGB series the pipeline
computes `heartRate.value = 0` without any exception, `hrv` comes out as
`value = 0` with confidence low, and the SpO2 estimator returns
confidence low with `value = NaN` — not `null`, because no modelled
operation throws and the catch branch is unreachable. -/
theorem constant_series_pipeline_results {n : ℕ} (hn : n ≠ 0) (c : ℚ) :
    (calculateHeartRate (List.replicate n (constFrame c))).value = num 0 ∧
    (calculateHRV (List.replicate n (constFrame c))).value = num 0 ∧
    (calculateHRV (List.replicate n (constFrame c))).confidence = "low" ∧
    (calculateSpO2 (List.replicate n (constFrame c))).confidence = "low" ∧
    (calculateSpO2 (List.replicate n (constFrame c))).value = some nan := by
  rw [calculateHeartRate_const hn c, calculateHRV_const c, calculateSpO2_const hn c]
  exact ⟨rfl, rfl, rfl, rfl, rfl⟩

/-- C2, witness: the amended theorem applied at the length-50 constant
series of the claimed scenario. -/
theorem constant_series_pipeline_results_witness :
    (50 : ℕ) ≠ 0 ∧
    (calculateHeartRate (List.replicate 50 (constFrame 1))).value = num 0 ∧
    (calculateHRV (List.replicate 50 (constFrame 1))).confidence = "low" ∧
    (calculateSpO2 (List.replicate 50 (constFrame 1))).confidence = "low" := by
  have h := constant_series_pipeline_results (by norm_num : (50 : ℕ) ≠ 0) 1
  exact ⟨by norm_num, h.1, h.2.2.1, h.2.2.2.1⟩

/-! Claim C5. -/

/-- C5: the band-limiting operation ignores its filter parameters — for
every signal and every two parameter sets it returns the 5-sample
trailing moving average of the signal. -/
theorem butterworth_is_movingAverage5 (signal : List JSNum)
    (options options' : FilterOptions) :
    butterworth signal options = movingAverage signal 5 ∧
    butterworth signal options = butterworth signal options' := by
  rw [butterworth_eq, butterworth_eq]
  exact ⟨rfl, rfl⟩

/-! Claim C3. -/

/-- Calibration curve as the spec words it: `clamp(110 - 25 * R, 70, 100)`. -/
def specSpO2Calibration (R : ℚ) : ℚ := min 100 (max 70 (110 - 25 * R))

/-- C3: for every finite R the calibration returns
`clamp(110 - 25 R, 70, 100)`; it is monotonically non-increasing in R,
always lies in the range 70 to 100, and takes the values 85, 100, 70 at
R = 1, 0, 2. -/
theorem calculateCalibatedSpO2_spec :
    (∀ R : ℚ, calculateCalibatedSpO2 (num R) = num (specSpO2Calibration R)) ∧
    (∀ a b : ℚ, a ≤ b → specSpO2Calibration b ≤ specSpO2Calibration a) ∧
    (∀ R : ℚ, 70 ≤ specSpO2Calibration R ∧ specSpO2Calibration R ≤ 100) ∧
    calculateCalibatedSpO2 (num 1) = num 85 ∧
    calculateCalibatedSpO2 (num 0) = num 100 ∧
    calculateCalibatedSpO2 (num 2) = num 70 := by
  have heq : ∀ R : ℚ, calculateCalibatedSpO2 (num R) = num (specSpO2Calibration R) := by
    intro R
    rw [calculateCalibatedSpO2, specSpO2Calibration]
    simp only [jsMul_num, jsSub_num, jsMax_num, jsMin_num]
  refine ⟨heq, ?_, ?_, ?_, ?_, ?_⟩
  · intro a b hab
    rw [specSpO2Calibration, specSpO2Calibration]
    have h : 110 - 25 * b ≤ 110 - 25 * a := by linarith
    exact min_le_min le_rfl (max_le_max le_rfl h)
  · intro R
    rw [specSpO2Calibration]
    constructor
    · exact le_min (by norm_num) (le_max_left _ _)
    · exact min_le_left _ _
  · rw [heq, specSpO2Calibration]
    norm_num
  · rw [heq, specSpO2Calibration]
    norm_num
  · rw [heq, specSpO2Calibration]
    norm_num

/-- C3, witness: the monotonicity and range parts of the theorem applied
at the concrete ratios 1 and 2. -/
theorem calculateCalibatedSpO2_spec_witness :
    (1 : ℚ) ≤ 2 ∧ specSpO2Calibration 2 ≤ specSpO2Calibration 1 ∧
    70 ≤ specSpO2Calibration 1 ∧ specSpO2Calibration 1 ≤ 100 := by
  have h := calculateCalibatedSpO2_spec
  exact ⟨by norm_num, h.2.1 1 2 (by norm_num), (h.2.2.1 1).1, (h.2.2.1 1).2⟩

/-! Claim C4. -/

/-- C4, counterexample: at hrvValue 10 (band score 100) and respiratory
rate 25 (band score 100) the code returns stress value 100 =
round(100 * 0.7 + 100 * 0.3), while the claimed formula with weight 0.4
on the respiratory score gives 110. -/
theorem calculateStressLevel_weight_counterexample :
    (calculateStressLevel (num 10) (num 25)).value = 100 ∧
    jsRoundQ (hrvBandScore (num 10) * (7 / 10) +
      respiratoryBandScore (num 25) * (4 / 10)) = 110 ∧
    (calculateStressLevel (num 10) (num 25)).value ≠
      jsRoundQ (hrvBandScore (num 10) * (7 / 10) +
        respiratoryBandScore (num 25) * (4 / 10)) := by
  have hhrv : hrvBandScore (num 10) = 100 := by
    rw [hrvBandScore]
    norm_num
  have hresp : respiratoryBandScore (num 25) = 100 := by
    rw [respiratoryBandScore]
    norm_num [jsGt]
  have hval : (calculateStressLevel (num 10) (num 25)).value = 100 := by
    rw [calculateStressLevel]
    simp only [hhrv, hresp]
    rw [show (100 : ℚ) * (7 / 10) + 100 * (3 / 10) = ((100 : ℤ) : ℚ) by norm_num,
      jsRoundQ_intCast]
    norm_num
  have hclaim : jsRoundQ (hrvBandScore (num 10) * (7 / 10) +
      respiratoryBandScore (num 25) * (4 / 10)) = 110 := by
    rw [hhrv, hresp]
    rw [show (100 : ℚ) * (7 / 10) + 100 * (4 / 10) = ((110 : ℤ) : ℚ) by norm_num,
      jsRoundQ_intCast]
    norm_num
  refine ⟨hval, hclaim, ?_⟩
  rw [hval, hclaim]
  norm_num

theorem hrvBandScore_bounds (h : JSNum) :
    20 ≤ hrvBandScore h ∧ hrvBandScore h ≤ 100 := by
  rw [hrvBandScore]
  split_ifs <;> norm_num

theorem respiratoryBandScore_bounds (r : JSNum) :
    20 ≤ respiratoryBandScore r ∧ respiratoryBandScore r ≤ 100 := by
  rw [respiratoryBandScore]
  split_ifs <;> norm_num

/-- C4, amended: the stress score is
`round(hrvScore * 0.7 + respiratoryScore * 0.3)` over the fixed discrete
bands (the respiratory weight in the code is 0.3, not 0.4), the score
always lies in the range 20 to 100, and it is classified into the five
labels at the fixed breakpoints 20, 40, 60, 80. -/
theorem calculateStressLevel_spec :
    (∀ h r : JSNum, (calculateStressLevel h r).value =
      jsRoundQ (hrvBandScore h * (7 / 10) + respiratoryBandScore r * (3 / 10))) ∧
    (∀ h r : JSNum, 20 ≤ (calculateStressLevel h r).value ∧
      (calculateStressLevel h r).value ≤ 100) ∧
    (∀ h r : JSNum, (calculateStressLevel h r).level =
      getStressLevel ((calculateStressLevel h r).value)) ∧
    (∀ s : ℚ, 80 ≤ s → getStressLevel s = "very high") ∧
    (∀ s : ℚ, 60 ≤ s → s < 80 → getStressLevel s = "high") ∧
    (∀ s : ℚ, 40 ≤ s → s < 60 → getStressLevel s = "moderate") ∧
    (∀ s : ℚ, 20 ≤ s → s < 40 → getStressLevel s = "low") ∧
    (∀ s : ℚ, s < 20 → getStressLevel s = "very low") := by
  refine ⟨fun h r => rfl, ?_, fun h r => rfl, ?_, ?_, ?_, ?_, ?_⟩
  · intro h r
    obtain ⟨ha1, ha2⟩ := hrvBandScore_bounds h
    obtain ⟨hb1, hb2⟩ := respiratoryBandScore_bounds r
    have hv : (calculateStressLevel h r).value =
        jsRoundQ (hrvBandScore h * (7 / 10) + respiratoryBandScore r * (3 / 10)) := rfl
    rw [hv, jsRoundQ]
    constructor
    · have hfl : (20 : ℤ) ≤ ⌊hrvBandScore h * (7 / 10) + respiratoryBandScore r * (3 / 10) +
          1 / 2⌋ := by
        apply Int.le_floor.mpr
        push_cast
        linarith
      exact_mod_cast hfl
    · have hfl : ⌊hrvBandScore h * (7 / 10) + respiratoryBandScore r * (3 / 10) + 1 / 2⌋ <
          (101 : ℤ) := by
        apply Int.floor_lt.mpr
        push_cast
        linarith
      have hfl2 : ⌊hrvBandScore h * (7 / 10) + respiratoryBandScore r * (3 / 10) + 1 / 2⌋ ≤
          (100 : ℤ) := by omega
      exact_mod_cast hfl2
  · intro s hs
    rw [getStressLevel]
    simp [hs]
  · intro s hs1 hs2
    rw [getStressLevel]
    rw [if_neg (by linarith), if_pos hs1]
  · intro s hs1 hs2
    rw [getStressLevel]
    rw [if_neg (by linarith), if_neg (by linarith), if_pos hs1]
  · intro s hs1 hs2
    rw [getStressLevel]
    rw [if_neg (by linarith), if_neg (by linarith), if_neg (by linarith), if_pos hs1]
  · intro s hs
    rw [getStressLevel]
    rw [if_neg (by linarith), if_neg (by linarith), if_neg (by linarith),
      if_neg (by linarith)]

/-- C4, witness: the classification part of the theorem applied at the
concrete score 65. -/
theorem calculateStressLevel_spec_witness :
    ((60 : ℚ) ≤ 65 ∧ (65 : ℚ) < 80) ∧ getStressLevel 65 = "high" := by
  have h := calculateStressLevel_spec
  exact ⟨⟨by norm_num, by norm_num⟩, h.2.2.2.2.1 65 (by norm_num) (by norm_num)⟩

/-! Claim C6. -/

theorem jsDiv_num_zero_pos {a : ℚ} (h : 0 < a) : jsDiv (num a) (num 0) = posInf := by
  simp [jsDiv, h]

theorem jsDiv_num_zero_neg {a : ℚ} (h : a < 0) : jsDiv (num a) (num 0) = negInf := by
  have h2 : ¬(0 < a) := lt_asymm h
  simp [jsDiv, h, h2]

/-- C6: confidence bucketing is a total, exhaustive partition — every
input series maps to exactly one of high, moderate, low; an SNR of
exactly 2 maps to moderate, NaN and negative-infinite SNR map to low,
and positive-infinite SNR maps to high. -/
theorem calculateConfidence_partition :
    (∀ data : List JSNum, calculateConfidence data = "high" ∨
      calculateConfidence data = "moderate" ∨ calculateConfidence data = "low") ∧
    (∀ data : List JSNum, jsDiv (mathMean data) (mathStd data) = num 2 →
      calculateConfidence data = "moderate") ∧
    (∀ data : List JSNum, jsDiv (mathMean data) (mathStd data) = nan →
      calculateConfidence data = "low") ∧
    (∀ data : List JSNum, jsDiv (mathMean data) (mathStd data) = posInf →
      calculateConfidence data = "high") ∧
    (∀ data : List JSNum, jsDiv (mathMean data) (mathStd data) = negInf →
      calculateConfidence data = "low") ∧
    (∀ (data : List JSNum) (q : ℚ), jsDiv (mathMean data) (mathStd data) = num q →
      calculateConfidence data =
        (if 2 < q then "high" else if 1 < q then "moderate" else "low")) := by
  refine ⟨?_, ?_, ?_, ?_, ?_, ?_⟩
  · intro data
    rw [calculateConfidence]
    split_ifs <;> simp
  · intro data h
    rw [calculateConfidence]
    simp only [h]
    norm_num [jsGt]
  · intro data h
    rw [calculateConfidence]
    simp only [h]
    simp [jsGt]
  · intro data h
    rw [calculateConfidence]
    simp only [h]
    rfl
  · intro data h
    rw [calculateConfidence]
    simp only [h]
    rfl
  · intro data q h
    rw [calculateConfidence]
    simp only [h, jsGt, jsLt_num, decide_eq_true_eq]

theorem snr_alternating : jsDiv (mathMean [num 1, num 3, num 1, num 3])
    (mathStd [num 1, num 3, num 1, num 3]) = num 2 := by
  have hmean : mathMean [num 1, num 3, num 1, num 3] = num 2 := by
    rw [mathMean]
    have hsum : mathSum [num (1 : ℚ), num 3, num 1, num 3] = num 8 := by
      rw [mathSum]
      simp only [List.foldl_cons, List.foldl_nil, jsAdd_num]
      norm_num
    rw [hsum, show lenOr1 [num (1 : ℚ), num 3, num 1, num 3] = 4 from rfl,
      jsDiv_num_of_ne _ (by norm_num : (4 : ℚ) ≠ 0)]
    norm_num
  have hstd : mathStd [num 1, num 3, num 1, num 3] = num 1 := by
    rw [mathStd]
    simp only [hmean, List.foldl_cons, List.foldl_nil, jsSub_num, jsMul_num, jsAdd_num]
    rw [show lenOr1 [num (1 : ℚ), num 3, num 1, num 3] = 4 from rfl,
      jsDiv_num_of_ne _ (by norm_num : (4 : ℚ) ≠ 0)]
    rw [show (0 + (1 - 2) * (1 - 2) + (3 - 2) * (3 - 2) + (1 - 2) * (1 - 2) +
      (3 - 2) * (3 - 2)) / 4 = (1 : ℚ) by norm_num]
    exact jsSqrt_one
  rw [hmean, hstd, jsDiv_num_of_ne _ (by norm_num : (1 : ℚ) ≠ 0)]
  norm_num

theorem snr_const_pos : jsDiv (mathMean [num 5, num 5])
    (mathStd [num 5, num 5]) = posInf := by
  have hmean : mathMean [num 5, num 5] = num 5 := by
    rw [mathMean]
    have hsum : mathSum [num (5 : ℚ), num 5] = num 10 := by
      rw [mathSum]
      simp only [List.foldl_cons, List.foldl_nil, jsAdd_num]
      norm_num
    rw [hsum, show lenOr1 [num (5 : ℚ), num 5] = 2 from rfl,
      jsDiv_num_of_ne _ (by norm_num : (2 : ℚ) ≠ 0)]
    norm_num
  have hstd : mathStd [num 5, num 5] = num 0 := by
    rw [mathStd]
    simp only [hmean, List.foldl_cons, List.foldl_nil, jsSub_num, jsMul_num, jsAdd_num]
    rw [show lenOr1 [num (5 : ℚ), num 5] = 2 from rfl,
      jsDiv_num_of_ne _ (by norm_num : (2 : ℚ) ≠ 0)]
    rw [show (0 + (5 - 5) * (5 - 5) + (5 - 5) * (5 - 5)) / 2 = (0 : ℚ) by norm_num]
    exact jsSqrt_zero
  rw [hmean, hstd]
  exact jsDiv_num_zero_pos (by norm_num)

theorem snr_const_neg : jsDiv (mathMean [num (-5), num (-5)])
    (mathStd [num (-5), num (-5)]) = negInf := by
  have hmean : mathMean [num (-5), num (-5)] = num (-5) := by
    rw [mathMean]
    have hsum : mathSum [num (-5 : ℚ), num (-5)] = num (-10) := by
      rw [mathSum]
      simp only [List.foldl_cons, List.foldl_nil, jsAdd_num]
      norm_num
    rw [hsum, show lenOr1 [num (-5 : ℚ), num (-5)] = 2 from rfl,
      jsDiv_num_of_ne _ (by norm_num : (2 : ℚ) ≠ 0)]
    norm_num
  have hstd : mathStd [num (-5), num (-5)] = num 0 := by
    rw [mathStd]
    simp only [hmean, List.foldl_cons, List.foldl_nil, jsSub_num, jsMul_num, jsAdd_num]
    rw [show lenOr1 [num (-5 : ℚ), num (-5)] = 2 from rfl,
      jsDiv_num_of_ne _ (by norm_num : (2 : ℚ) ≠ 0)]
    rw [show (0 + (-5 - -5) * (-5 - -5) + (-5 - -5) * (-5 - -5)) / 2 = (0 : ℚ) by norm_num]
    exact jsSqrt_zero
  rw [hmean, hstd]
  exact jsDiv_num_zero_neg (by norm_num)

theorem snr_nil : jsDiv (mathMean ([] : List JSNum)) (mathStd []) = nan := by
  rw [mathMean_nil, mathStd_nil, jsDiv_zero_zero]

/-- C6, witness: the partition theorem applied at four concrete series
whose SNR is exactly 2, NaN, positive infinity and negative infinity. -/
theorem calculateConfidence_partition_witness :
    jsDiv (mathMean [num 1, num 3, num 1, num 3])
      (mathStd [num 1, num 3, num 1, num 3]) = num 2 ∧
    calculateConfidence [num 1, num 3, num 1, num 3] = "moderate" ∧
    calculateConfidence [] = "low" ∧
    calculateConfidence [num 5, num 5] = "high" ∧
    calculateConfidence [num (-5), num (-5)] = "low" := by
  have h := calculateConfidence_partition
  exact ⟨snr_alternating, h.2.1 _ snr_alternating, h.2.2.1 _ snr_nil,
    h.2.2.2.1 _ snr_const_pos, h.2.2.2.2.1 _ snr_const_neg⟩

/-! Claims C7 and C8: RMSSD. -/

/-- Rational-level squared successive differences of an interval list. -/
def rmssdDiffs (l : List ℚ) : List ℚ :=
  (l.zip (l.drop 1)).map (fun p => (p.2 - p.1) * (p.2 - p.1))

theorem calculateRMSSD_cons (x : JSNum) (xs : List JSNum) :
    calculateRMSSD (x :: xs) =
      jsSqrt (jsOr (jsDiv ((((x :: xs).zip ((x :: xs).drop 1)).map
        (fun p => jsMul (jsSub p.2 p.1) (jsSub p.2 p.1))).foldl jsAdd (num 0))
        (num ((((x :: xs).zip ((x :: xs).drop 1)).map
          (fun p => jsMul (jsSub p.2 p.1) (jsSub p.2 p.1))).length : ℚ)))
        (num 1)) := rfl

theorem rmssd_differences (l : List ℚ) :
    ((l.map num).zip ((l.map num).drop 1)).map
      (fun p => jsMul (jsSub p.2 p.1) (jsSub p.2 p.1)) = (rmssdDiffs l).map num := by
  rw [← List.map_drop, List.zip_map, List.map_map, rmssdDiffs, List.map_map]
  simp [Function.comp, Prod.map]

theorem calculateRMSSD_map_num (l : List ℚ) :
    ∃ r : ℚ, calculateRMSSD (l.map num) = num r ∧ 0 ≤ r := by
  rcases l with _ | ⟨x, xs⟩
  · exact ⟨0, rfl, le_refl 0⟩
  · rw [List.map_cons, calculateRMSSD_cons, ← List.map_cons, rmssd_differences]
    have hsum : ((rmssdDiffs (x :: xs)).map num).foldl jsAdd (num 0) =
        num (rmssdDiffs (x :: xs)).sum := by
      have h := foldl_jsAdd_num (rmssdDiffs (x :: xs)) 0
      simpa using h
    have hnonneg : 0 ≤ (rmssdDiffs (x :: xs)).sum := by
      apply List.sum_nonneg
      intro y hy
      rw [rmssdDiffs] at hy
      simp only [List.mem_map] at hy
      obtain ⟨p, _, hp⟩ := hy
      rw [← hp]
      exact mul_self_nonneg _
    rw [hsum, List.length_map]
    by_cases hdnil : rmssdDiffs (x :: xs) = []
    · rw [hdnil]
      simp only [List.sum_nil, List.length_nil, Nat.cast_zero]
      rw [jsDiv_zero_zero, jsOr_nan, jsSqrt_one]
      exact ⟨1, rfl, by norm_num⟩
    · have hn : ((rmssdDiffs (x :: xs)).length : ℚ) ≠ 0 :=
        Nat.cast_ne_zero.mpr (fun h => hdnil (List.length_eq_zero.mp h))
      rw [jsDiv_num_of_ne _ hn]
      by_cases hq0 : (rmssdDiffs (x :: xs)).sum / ((rmssdDiffs (x :: xs)).length : ℚ) = 0
      · rw [hq0]
        rw [show jsOr (num 0) (num 1) = num 1 from rfl, jsSqrt_one]
        exact ⟨1, rfl, by norm_num⟩
      · have hq : 0 ≤ (rmssdDiffs (x :: xs)).sum / ((rmssdDiffs (x :: xs)).length : ℚ) :=
          div_nonneg hnonneg (Nat.cast_nonneg _)
        rw [show jsOr (num ((rmssdDiffs (x :: xs)).sum / ((rmssdDiffs (x :: xs)).length : ℚ)))
          (num 1) = num ((rmssdDiffs (x :: xs)).sum / ((rmssdDiffs (x :: xs)).length : ℚ)) by
            simp [jsOr, jsTruthy, hq0]]
        rw [show jsSqrt (num ((rmssdDiffs (x :: xs)).sum /
          ((rmssdDiffs (x :: xs)).length : ℚ))) = num (ratSqrt ((rmssdDiffs (x :: xs)).sum /
          ((rmssdDiffs (x :: xs)).length : ℚ))) by simp [jsSqrt, not_lt.mpr hq]]
        exact ⟨_, rfl, ratSqrt_nonneg _⟩

/-- C7: RMSSD of any finite interval list is a non-negative number, the
empty interval list yields exactly 0, and with fewer than two detected
peaks the HRV computation returns value 0 with confidence low without
throwing. -/
theorem calculateRMSSD_nonneg_spec :
    (∀ l : List ℚ, ∃ r : ℚ, calculateRMSSD (l.map num) = num r ∧ 0 ≤ r) ∧
    calculateRMSSD [] = num 0 ∧
    (∀ rppgSignal : List RGB, (detectPeaks (rppgSignal.map RGB.g)).length < 2 →
      calculateHRV rppgSignal = { value := num 0, unit := "ms", confidence := "low" }) :=
  ⟨calculateRMSSD_map_num, rfl, fun _ h => calculateHRV_few_peaks h⟩

/-- C7, witness: the theorem applied at the interval list `[3, 5]` and at
a three-sample constant signal with no detectable peaks. -/
theorem calculateRMSSD_nonneg_spec_witness :
    (∃ r : ℚ, calculateRMSSD ([3, 5].map num) = num r ∧ 0 ≤ r) ∧
    (detectPeaks ([constFrame 1, constFrame 1, constFrame 1].map RGB.g)).length < 2 ∧
    calculateHRV [constFrame 1, constFrame 1, constFrame 1] =
      { value := num 0, unit := "ms", confidence := "low" } := by
  have h := calculateRMSSD_nonneg_spec
  have hpk : (detectPeaks ([constFrame 1, constFrame 1, constFrame 1].map RGB.g)).length < 2 := by
    have h3 : [constFrame 1, constFrame 1, constFrame 1] = List.replicate 3 (constFrame 1) := rfl
    rw [h3]
    simp only [List.map_replicate]
    rw [show (constFrame 1).g = num 1 from rfl, detectPeaks_replicate 3 (jsGt_self_num 1)]
    norm_num
  exact ⟨h.1 [3, 5], hpk, h.2.2 _ hpk⟩

theorem rmssdDiffs_const : ∀ l : List ℚ, List.Chain' (fun a b => a = b) l →
    rmssdDiffs l = List.replicate (l.length - 1) 0 := by
  intro l
  induction l with
  | nil => intro _; rfl
  | cons x xs ih =>
      intro h
      cases xs with
      | nil => rfl
      | cons y t =>
          rw [List.chain'_cons] at h
          have hstep : rmssdDiffs (x :: y :: t) = (y - x) * (y - x) :: rmssdDiffs (y :: t) := rfl
          rw [hstep, h.1, sub_self, mul_zero, ih h.2]
          simp [List.replicate_succ]

/-- C8: for every non-empty interval list whose successive differences
are all zero — any singleton and any constant interval list —
calculateRMSSD returns exactly 1: the zero (or NaN, from the empty
division) mean of squared differences is falsy, so the JavaScript
`|| 1` guard substitutes 1 before the square root. -/
theorem calculateRMSSD_constant_intervals_one (l : List ℚ) (hne : l ≠ [])
    (hchain : List.Chain' (fun a b => a = b) l) : calculateRMSSD (l.map num) = num 1 := by
  rcases l with _ | ⟨x, xs⟩
  · exact absurd rfl hne
  · rw [List.map_cons, calculateRMSSD_cons, ← List.map_cons, rmssd_differences,
      rmssdDiffs_const _ hchain]
    have hk : (x :: xs).length - 1 = xs.length := by simp
    rw [hk, List.map_replicate]
    have hfold : (List.replicate xs.length (num (0 : ℚ))).foldl jsAdd (num 0) = num 0 := by
      have h := foldl_jsAdd_num (List.replicate xs.length 0) 0
      rw [List.map_replicate] at h
      simpa using h
    rw [hfold, List.length_replicate]
    rcases Nat.eq_zero_or_pos xs.length with hz | hpos
    · rw [hz]
      simp only [Nat.cast_zero]
      rw [jsDiv_zero_zero, jsOr_nan, jsSqrt_one]
    · have hn : (xs.length : ℚ) ≠ 0 := Nat.cast_ne_zero.mpr (by omega)
      rw [jsDiv_num_of_ne _ hn, zero_div]
      rw [show jsOr (num 0) (num 1) = num 1 by simp [jsOr, jsTruthy], jsSqrt_one]

/-- C8, witness: the theorem applied at the singleton interval list `[5]`
and at the constant interval list `[7, 7, 7]`. -/
theorem calculateRMSSD_constant_intervals_one_witness :
    ([(5 : ℚ)] ≠ [] ∧ List.Chain' (fun a b => a = b) [(5 : ℚ)]) ∧
    calculateRMSSD ([(5 : ℚ)].map num) = num 1 ∧
    calculateRMSSD ([(7 : ℚ), 7, 7].map num) = num 1 := by
  refine ⟨⟨by simp, List.chain'_singleton 5⟩, ?_, ?_⟩
  · exact calculateRMSSD_constant_intervals_one [5] (by simp) (List.chain'_singleton 5)
  · exact calculateRMSSD_constant_intervals_one [7, 7, 7] (by simp)
      (by simp [List.chain'_cons])

/-! Claim C9. -/

/-- Weight table as the spec words it: high 1.0, moderate 0.6, low 0.3. -/
def specConfidenceWeight (c : String) : ℚ :=
  if c = "high" then 1 else if c = "moderate" then 3 / 5 else 3 / 10

theorem specConfidenceWeight_eq {c : String}
    (h : c = "high" ∨ c = "moderate" ∨ c = "low") :
    confidenceScore c = specConfidenceWeight c := by
  rcases h with h | h | h <;> subst h <;> rfl

/-- C9: for a bundle whose six primary metrics carry the labels high,
moderate or low, the overall confidence score is the average of the
fixed weights 1.0, 0.6, 0.3 over exactly those six metrics, the level is
the re-bucketing at 0.8 and 0.5, and the result depends only on the six
confidence labels (determinism). -/
theorem calculateOverallConfidence_spec (v : VitalsBundle)
    (h1 : v.heartRate.confidence = "high" ∨ v.heartRate.confidence = "moderate" ∨
      v.heartRate.confidence = "low")
    (h2 : v.hrv.confidence = "high" ∨ v.hrv.confidence = "moderate" ∨
      v.hrv.confidence = "low")
    (h3 : v.respiratoryRate.confidence = "high" ∨ v.respiratoryRate.confidence = "moderate" ∨
      v.respiratoryRate.confidence = "low")
    (h4 : v.bloodPressure.confidence = "high" ∨ v.bloodPressure.confidence = "moderate" ∨
      v.bloodPressure.confidence = "low")
    (h5 : v.stressLevel.confidence = "high" ∨ v.stressLevel.confidence = "moderate" ∨
      v.stressLevel.confidence = "low")
    (h6 : v.spO2.confidence = "high" ∨ v.spO2.confidence = "moderate" ∨
      v.spO2.confidence = "low") :
    (calculateOverallConfidence v).score =
      (specConfidenceWeight v.heartRate.confidence + specConfidenceWeight v.hrv.confidence +
        specConfidenceWeight v.respiratoryRate.confidence +
        specConfidenceWeight v.bloodPressure.confidence +
        specConfidenceWeight v.stressLevel.confidence +
        specConfidenceWeight v.spO2.confidence) / 6 ∧
    (calculateOverallConfidence v).level =
      (if (calculateOverallConfidence v).score > 4 / 5 then "high"
        else if (calculateOverallConfidence v).score > 1 / 2 then "moderate" else "low") ∧
    (∀ w : VitalsBundle, w.heartRate.confidence = v.heartRate.confidence →
      w.hrv.confidence = v.hrv.confidence →
      w.respiratoryRate.confidence = v.respiratoryRate.confidence →
      w.bloodPressure.confidence = v.bloodPressure.confidence →
      w.stressLevel.confidence = v.stressLevel.confidence →
      w.spO2.confidence = v.spO2.confidence →
      calculateOverallConfidence w = calculateOverallConfidence v) := by
  refine ⟨?_, rfl, ?_⟩
  · rw [calculateOverallConfidence]
    simp only [List.map_cons, List.map_nil, List.foldl_cons, List.foldl_nil,
      List.length_cons, List.length_nil, specConfidenceWeight_eq h1,
      specConfidenceWeight_eq h2, specConfidenceWeight_eq h3, specConfidenceWeight_eq h4,
      specConfidenceWeight_eq h5, specConfidenceWeight_eq h6]
    norm_num
  · intro w hw1 hw2 hw3 hw4 hw5 hw6
    rw [calculateOverallConfidence, calculateOverallConfidence, hw1, hw2, hw3, hw4, hw5, hw6]

/-- Bundle with every metric confidence high and all values in the
normal ranges. -/
def allHighBundle : VitalsBundle :=
  { heartRate := { value := num 72, confidence := "high" }
    hrv := { value := num 50, confidence := "high" }
    respiratoryRate := { value := num 14, confidence := "high" }
    bloodPressure := { systolic := num 110, diastolic := num 70, confidence := "high" }
    stressLevel := { value := num 30, confidence := "high" }
    spO2 := { value := some (num 97), confidence := "high" } }

/-- C9, witness: the theorem applied to the all-high bundle gives score 1
and level high. -/
theorem calculateOverallConfidence_spec_witness :
    allHighBundle.heartRate.confidence = "high" ∧
    (calculateOverallConfidence allHighBundle).score = 1 ∧
    (calculateOverallConfidence allHighBundle).level = "high" := by
  have h := calculateOverallConfidence_spec allHighBundle (Or.inl rfl) (Or.inl rfl)
    (Or.inl rfl) (Or.inl rfl) (Or.inl rfl) (Or.inl rfl)
  have hscore : (calculateOverallConfidence allHighBundle).score = 1 := by
    rw [h.1]
    norm_num [allHighBundle, specConfidenceWeight]
  refine ⟨rfl, hscore, ?_⟩
  rw [h.2.1, hscore]
  norm_num

/-! Claim C10. -/

/-- All-metrics-present bundle with heart rate 72 and SpO2 97 but a low
HRV value of 10. -/
def lowHrvBundle : VitalsBundle :=
  { heartRate := { value := num 72, confidence := "moderate" }
    hrv := { value := num 10, confidence := "moderate" }
    respiratoryRate := { value := num 14, confidence := "moderate" }
    bloodPressure := { systolic := num 110, diastolic := num 70, confidence := "low" }
    stressLevel := { value := num 30, confidence := "moderate" }
    spO2 := { value := some (num 97), confidence := "moderate" } }

/-- C10, counterexample: an all-metrics-present bundle with heart rate 72
and SpO2 97 but HRV 10 yields the summary status Needs Attention with a
non-empty concerns list, refuting the claim that heart rate and SpO2
alone force a Healthy, concern-free summary. -/
theorem generateHealthSummary_hr72_not_always_healthy :
    lowHrvBundle.heartRate.value = num 72 ∧
    lowHrvBundle.spO2.value = some (num 97) ∧
    (generateHealthSummary lowHrvBundle).concerns =
      ["Lower than optimal heart rate variability"] ∧
    (generateHealthSummary lowHrvBundle).overallStatus = "Needs Attention" := by
  refine ⟨rfl, rfl, ?_, ?_⟩ <;>
    norm_num [generateHealthSummary, lowHrvBundle, jsGt, jsGe]

/-- C10, amended: an all-metrics-present bundle with heart rate 72 and
SpO2 97 whose HRV is not below 20 and whose stress value is not above 70
produces the Healthy summary with an empty concerns list, and
identifyHealthConcerns returns no concern. -/
theorem generateHealthSummary_healthy (v : VitalsBundle)
    (hhr : v.heartRate.value = num 72)
    (hsp : v.spO2.value = some (num 97))
    (hhrv : jsLt v.hrv.value (num 20) = false)
    (hstress : jsGt v.stressLevel.value (num 70) = false) :
    generateHealthSummary v =
      { concerns := []
        positives := ["Heart rate within normal range", "Good heart rate variability",
          "Normal oxygen saturation levels"]
        overallStatus := "Healthy" } ∧
    identifyHealthConcerns v = [] := by
  constructor
  · rw [generateHealthSummary, hhr, hsp, hhrv, hstress]
    norm_num [jsGt, jsGe]
  · rw [identifyHealthConcerns, hhr, hsp, hstress]
    norm_num [jsGt, jsLt]

/-- C10, witness: the amended theorem applied to the all-high bundle,
whose HRV is 50 and stress value 30. -/
theorem generateHealthSummary_healthy_witness :
    (allHighBundle.heartRate.value = num 72 ∧
      allHighBundle.spO2.value = some (num 97) ∧
      jsLt allHighBundle.hrv.value (num 20) = false ∧
      jsGt allHighBundle.stressLevel.value (num 70) = false) ∧
    (generateHealthSummary allHighBundle).overallStatus = "Healthy" ∧
    (generateHealthSummary allHighBundle).concerns = [] ∧
    identifyHealthConcerns allHighBundle = [] := by
  have hhrv : jsLt allHighBundle.hrv.value (num 20) = false := by
    norm_num [allHighBundle]
  have hstress : jsGt allHighBundle.stressLevel.value (num 70) = false := by
    norm_num [allHighBundle, jsGt]
  have h := generateHealthSummary_healthy allHighBundle rfl rfl hhrv hstress
  exact ⟨⟨rfl, rfl, hhrv, hstress⟩, by rw [h.1], by rw [h.1], h.2⟩
